import Mathlib

/-!
Shallow embedding of the Stripe webhook ingestion pipeline
(`src/python/stripe-webhooks`): the data model (`lib/models.py`,
`lib/tables.py`), the idempotency-tracker operations of `context.py`,
the pipeline orchestration `process_event` and the queue-relayed entry
point `pubsub` of `app.py`, and the signature-verification wrapper of
`lib/stripe.py`.

Modelling conventions: Python dictionaries that the pipeline consults
only for their string entries (the event payload `event.data.object`)
are association lists `List (String × String)`; a missing key raises
`PyExc.keyError`, mirroring `dict.__getitem__`.  Machine-relevant
exceptions are the explicit `PyExc` type and fallible code returns
`Except`.  The persistent `webhook_trackers` table is a `TrackerState`:
a list of rows plus a fresh-id counter standing in for `uuid4()`; row
ids produced by the counter are fresh, so the sequential model cannot
hit the `UniqueViolationError` branch of `increment_webhook_tracker`.
Handler resolution via `importlib` (dynamic file loading) is abstracted
as a `Registry` function from the event-type string to the outcome the
`try/except` ladder of `process_event` distinguishes; the handler body
itself is an opaque function that either returns normally or raises.
Every store operation performed by the tracker code is also recorded in
an explicit trace (`StoreOp`) so that frame claims (no read, no write)
are statements about the trace.
-/

namespace StripeWebhooks

/-- The `data` field of a Stripe event (`lib/models.py`, `StripeEventData`):
the payload object as an open key/value map, plus optional previous
attributes. -/
structure StripeEventData where
  object : List (String × String)
  previous_attributes : Option (List (String × String)) := none
  deriving DecidableEq

/-- An inbound Stripe event (`lib/models.py`, `StripeEvent`).  The fields
not consulted by the pipeline (`api_version`, `request`) are omitted. -/
structure StripeEvent where
  id : String
  type : String
  created : Int
  data : StripeEventData
  deriving DecidableEq

/-- A row of the `webhook_trackers` table (`lib/tables.py`,
`_WebhookTracker`). -/
structure WebhookTracker where
  id : Nat
  event_id : String
  event_type : String
  updated : Int
  deriving DecidableEq

/-- The persistent tracker store: the rows of `webhook_trackers` plus a
counter supplying fresh row ids (standing in for `uuid4()`). -/
structure TrackerState where
  rows : List WebhookTracker
  nextId : Nat
  deriving DecidableEq

/-- The store before any event was recorded. -/
def emptyTrackerState : TrackerState := ⟨[], 0⟩

/-- The Python exceptions the embedded pipeline can raise. -/
inductive PyExc where
  | keyError (key : String)
  | assertionError
  | httpException (status : Nat) (detail : String)
  | handlerError (msg : String)
  deriving DecidableEq

/-- Trace entries recording every operation `context.py` performs against
the `webhook_trackers` store: the `SELECT` of `fetch_webhook_tracker`,
the `INSERT` and the `UPDATE` of `increment_webhook_tracker`. -/
inductive StoreOp where
  | fetch (event_id : String) (event_type : String)
  | insertRow (row : WebhookTracker)
  | updateRow (rowId : Nat) (updated : Int)
  deriving DecidableEq

/-- `Context.prepare_log_extras` (`context.py` lines 36-40): extends the
extras dict with `event_id` and `resource_id`, where the resource id is
`self.resource["id"]` — a lookup of the key `id` in the event payload
object that raises `KeyError` when the key is absent. -/
def prepare_log_extras (event : StripeEvent) (extra : List (String × String)) :
    Except PyExc (List (String × String)) :=
  match event.data.object.lookup "id" with
  | none => .error (.keyError "id")
  | some rid => .ok (extra ++ [("event_id", event.id), ("resource_id", rid)])

/-- `Context.warning` (`context.py`): logs with `prepare_log_extras`; the
only machine-visible effect is the possible `KeyError` raised while
building the extras. -/
def ctxWarning (event : StripeEvent) (extra : List (String × String)) :
    Except PyExc Unit :=
  match prepare_log_extras event extra with
  | .error e => .error e
  | .ok _ => .ok ()

/-- The row returned by the `SELECT ... WHERE event_id = :event_id AND
event_type = :event_type` of `fetch_webhook_tracker` (`fetch_one` returns
the first matching row). -/
def findTrackerRow (rows : List WebhookTracker) (evtId ty : String) :
    Option WebhookTracker :=
  rows.find? (fun t => t.event_id == evtId && t.event_type == ty)

/-- `Context.fetch_webhook_tracker` (`context.py` lines 60-69): reads
`event.data.object["id"]` (raising `KeyError` when absent, before any
store access) and then selects the tracker row keyed by (resource id,
event type). -/
def fetch_webhook_tracker (s : TrackerState) (event : StripeEvent) :
    Except PyExc (Option WebhookTracker) :=
  match event.data.object.lookup "id" with
  | none => .error (.keyError "id")
  | some evtId => .ok (findTrackerRow s.rows evtId event.type)

/-- `Context.check_webhook_tracker` (`context.py` lines 72-76): true when
no tracker row exists, otherwise true exactly when the stored timestamp
is strictly below the event creation timestamp. -/
def check_webhook_tracker (s : TrackerState) (event : StripeEvent) :
    Except PyExc Bool :=
  match fetch_webhook_tracker s event with
  | .error e => .error e
  | .ok none => .ok true
  | .ok (some t) => .ok (decide (t.updated < event.created))

/-- The store operations a successful `fetch_webhook_tracker` issues: one
`SELECT` once the id lookup succeeded, nothing when the `KeyError` fires
first. -/
def fetchOps (event : StripeEvent) : List StoreOp :=
  match event.data.object.lookup "id" with
  | none => []
  | some evtId => [.fetch evtId event.type]

/-- `Context.increment_webhook_tracker` (`context.py` lines 79-111):
re-reads the payload id and the tracker row, then inserts a fresh row
carrying the event creation timestamp when none exists, or updates every
row with the fetched row id to that timestamp.  Returns the new store
together with the trace of operations performed. -/
def increment_webhook_tracker (s : TrackerState) (event : StripeEvent) :
    Except PyExc (TrackerState × List StoreOp) :=
  match event.data.object.lookup "id" with
  | none => .error (.keyError "id")
  | some evtId =>
    match findTrackerRow s.rows evtId event.type with
    | none =>
      let row : WebhookTracker :=
        ⟨s.nextId, evtId, event.type, event.created⟩
      .ok (⟨s.rows ++ [row], s.nextId + 1⟩,
           [.fetch evtId event.type, .insertRow row])
    | some t =>
      .ok (⟨s.rows.map (fun r =>
              if r.id = t.id then { r with updated := event.created } else r),
            s.nextId⟩,
           [.fetch evtId event.type, .updateRow t.id event.created])

/-- The outcome of resolving an event type through the `importlib`-based
router of `process_event` (`app.py` lines 80-119), one constructor per
case the `try/except` ladder distinguishes: a resolved handler, a missing
module file (`FileNotFoundError`), a missing function
(`AttributeError`), a `stripe.RateLimitError`, or another
`stripe.StripeError` carrying its `http_status`. -/
inductive Resolution where
  | resolved (handler : StripeEvent → Except PyExc Unit)
  | fileNotFoundError
  | attributeError
  | rateLimitError (msg : String)
  | stripeError (httpStatus : Option Nat) (msg : String)

/-- Handler resolution as a function of the event-type string. -/
abbrev Registry := String → Resolution

instance {ε α : Type} [DecidableEq ε] [DecidableEq α] :
    DecidableEq (Except ε α) := fun a b =>
  match a, b with
  | .ok x, .ok y =>
    if h : x = y then .isTrue (by rw [h])
    else .isFalse (fun hh => h (Except.ok.inj hh))
  | .error x, .error y =>
    if h : x = y then .isTrue (by rw [h])
    else .isFalse (fun hh => h (Except.error.inj hh))
  | .ok _, .error _ => .isFalse nofun
  | .error _, .ok _ => .isFalse nofun

/-- The observable result of one `process_event` invocation: the returned
value (`.ok ()` models the `{"success": True}` payload, the only normal
return) or the escaped exception, the tracker store afterwards, the
trace of store operations, and whether the resolved handler was
invoked. -/
structure PEResult where
  outcome : Except PyExc Unit
  state : TrackerState
  ops : List StoreOp
  handlerRan : Bool
  deriving DecidableEq

/-- `process_event` (`app.py` lines 70-131): resolve the handler, ACK
unresolved events after a context warning, turn rate-limit signals into
an HTTP 429, fall through to a failing `assert fun is not None` on other
Stripe errors, and otherwise gate on `check_webhook_tracker`, invoke the
handler, and commit via `increment_webhook_tracker`. -/
def process_event (registry : Registry) (s : TrackerState)
    (event : StripeEvent) : PEResult :=
  match registry event.type with
  | .fileNotFoundError =>
    match ctxWarning event [("event_id", event.id)] with
    | .error e => ⟨.error e, s, [], false⟩
    | .ok _ => ⟨.ok (), s, [], false⟩
  | .attributeError =>
    match ctxWarning event [("event_id", event.id)] with
    | .error e => ⟨.error e, s, [], false⟩
    | .ok _ => ⟨.ok (), s, [], false⟩
  | .rateLimitError msg =>
    match ctxWarning event [("event_id", event.id), ("error", msg)] with
    | .error e => ⟨.error e, s, [], false⟩
    | .ok _ => ⟨.error (.httpException 429 "Rate-limited by Stripe"), s, [], false⟩
  | .stripeError httpStatus msg =>
    if httpStatus = some 429 then
      match ctxWarning event [("event_id", event.id), ("error", msg)] with
      | .error e => ⟨.error e, s, [], false⟩
      | .ok _ => ⟨.error (.httpException 429 "Rate-limited by Stripe"), s, [], false⟩
    else
      ⟨.error .assertionError, s, [], false⟩
  | .resolved handler =>
    match check_webhook_tracker s event with
    | .error e => ⟨.error e, s, [], false⟩
    | .ok false => ⟨.ok (), s, fetchOps event, false⟩
    | .ok true =>
      match handler event with
      | .error e => ⟨.error e, s, fetchOps event, true⟩
      | .ok _ =>
        match increment_webhook_tracker s event with
        | .error e => ⟨.error e, s, fetchOps event, true⟩
        | .ok (s2, ops2) => ⟨.ok (), s2, fetchOps event ++ ops2, true⟩

/-- Sequential processing of a list of deliveries, one `process_event`
invocation each, threading the tracker store and collecting the creation
timestamps of the events whose handler actually ran (the committed,
non-skipped events). -/
def processSeq (registry : Registry) :
    TrackerState → List StripeEvent → TrackerState × List Int
  | s, [] => (s, [])
  | s, e :: rest =>
    let r := process_event registry s e
    let (s2, committed) := processSeq registry r.state rest
    (s2, (if r.handlerRan then [e.created] else []) ++ committed)

/-- A queue-relayed message (`lib/models.py`, `PubSubEvent`): the shared
secret plus the embedded Stripe event. -/
structure PubSubEvent where
  secret : String
  event : StripeEvent
  deriving DecidableEq

/-- The response of the `/pubsub` endpoint: `Response(status_code=204)`
for a dropped message, or the value returned (or exception raised) by
`process_event`. -/
inductive PubSubResponse where
  | noContent
  | pipeline (outcome : Except PyExc Unit)
  deriving DecidableEq

/-- The observable result of one `/pubsub` request: the response plus the
tracker store, the store-operation trace, whether a handler ran, and
whether the event router was consulted at all. -/
structure PubSubRunResult where
  response : PubSubResponse
  state : TrackerState
  ops : List StoreOp
  handlerRan : Bool
  routerQueried : Bool
  deriving DecidableEq

/-- The `/pubsub` endpoint (`app.py` lines 59-67): compare the enclosed
secret against `environ.get("PUBSUB_SECRET")` (an `Option`, since the
variable may be unset, in which case the Python `!=` against `None` is
always a mismatch); ACK with 204 and drop on mismatch, otherwise process
the embedded event inline. -/
def pubsub (expectedSecret : Option String) (registry : Registry)
    (s : TrackerState) (pe : PubSubEvent) : PubSubRunResult :=
  if some pe.secret ≠ expectedSecret then
    ⟨.noContent, s, [], false, false⟩
  else
    let r := process_event registry s pe.event
    ⟨.pipeline r.outcome, r.state, r.ops, r.handlerRan, true⟩

/-- The exceptions relevant to `Stripe.verify_signature`: Python
`ValueError`, and the Stripe library `SignatureVerificationError`, which
subclasses `stripe.StripeError` and hence `Exception` — it is *not* a
`ValueError`. -/
inductive SigExc where
  | valueError (msg : String)
  | signatureVerificationError (msg : String)
  deriving DecidableEq

/-- Models the third-party `stripe.WebhookSignature.verify_header`: every
verification failure (unparsable header, missing or wrong signature,
timestamp outside the tolerance) raises
`stripe.error.SignatureVerificationError`; on success it returns
normally.  The boolean argument abstracts whether the
(header, payload, secret, tolerance) combination verifies. -/
def verify_header (valid : Bool) : Except SigExc Unit :=
  if valid then .ok () else
    .error (.signatureVerificationError "signature verification failed")

/-- `Stripe.verify_signature` (`lib/stripe.py` lines 19-26): calls
`verify_header` inside `try ... except ValueError: return False` and
returns `True` when no exception escapes.  Only a `ValueError` is
caught; any other exception propagates to the caller. -/
def verify_signature (valid : Bool) : Except SigExc Bool :=
  match verify_header valid with
  | .error (.valueError _) => .ok false
  | .error e => .error e
  | .ok _ => .ok true

/-! Concrete fixtures used by witnesses and counterexamples. -/

/-- A handler that returns normally. -/
def okHandler : StripeEvent → Except PyExc Unit := fun _ => .ok ()

/-- A handler that raises. -/
def boomHandler : StripeEvent → Except PyExc Unit :=
  fun _ => .error (.handlerError "boom")

/-- A registry resolving every type to the normally-returning handler. -/
def regResolved : Registry := fun _ => .resolved okHandler

/-- A registry resolving every type to the raising handler. -/
def regBoom : Registry := fun _ => .resolved boomHandler

/-- A registry with no module file for any type. -/
def regFNF : Registry := fun _ => .fileNotFoundError

/-- A registry whose resolution hits a Stripe rate limit. -/
def regRL : Registry := fun _ => .rateLimitError "rate limited"

/-- A registry whose resolution hits a non-429 Stripe error. -/
def regSE500 : Registry := fun _ => .stripeError (some 500) "server error"

/-- An event whose payload object carries an `id` key. -/
def evWithId (c : Int) : StripeEvent :=
  ⟨"evt_1", "invoice.paid", c, ⟨[("id", "sub_1")], none⟩⟩

/-- An event whose payload object has no `id` key. -/
def evNoId : StripeEvent := ⟨"evt_2", "foo.bar", 1000, ⟨[], none⟩⟩

/-- A store already holding timestamp 2000 for the key
`("sub_1", "invoice.paid")`. -/
def oneRowState : TrackerState := ⟨[⟨0, "sub_1", "invoice.paid", 2000⟩], 1⟩

/-! Claim theorems. -/

/-- C1: for an event with a resolved handler, when a tracker row exists
for the key (payload id, event type) and its stored timestamp is at
least the event creation timestamp, `process_event` skips the handler,
leaves the store unchanged (one read, no write), and returns the
success payload. -/
theorem claim_C1_stale_gate (registry : Registry) (s : TrackerState)
    (e : StripeEvent) (handler : StripeEvent → Except PyExc Unit)
    (rid : String) (t : WebhookTracker)
    (hres : registry e.type = .resolved handler)
    (hid : e.data.object.lookup "id" = some rid)
    (hfind : findTrackerRow s.rows rid e.type = some t)
    (hstale : e.created ≤ t.updated) :
    process_event registry s e = ⟨.ok (), s, [.fetch rid e.type], false⟩ := by
  have hd : decide (t.updated < e.created) = false := by
    simp [not_lt.mpr hstale]
  simp only [process_event, hres, check_webhook_tracker, fetch_webhook_tracker,
    hid, hfind, fetchOps, hd]

/-- C1 witness: a concrete stale delivery (created 500 against stored
2000) is skipped with the store unchanged. -/
theorem claim_C1_witness :
    regResolved (evWithId 500).type = .resolved okHandler ∧
    (evWithId 500).data.object.lookup "id" = some "sub_1" ∧
    findTrackerRow oneRowState.rows "sub_1" (evWithId 500).type =
      some ⟨0, "sub_1", "invoice.paid", 2000⟩ ∧
    (evWithId 500).created ≤ (2000 : Int) ∧
    process_event regResolved oneRowState (evWithId 500) =
      ⟨.ok (), oneRowState, [.fetch "sub_1" "invoice.paid"], false⟩ :=
  ⟨rfl, by decide, by decide, by decide,
   claim_C1_stale_gate regResolved oneRowState (evWithId 500) okHandler
     "sub_1" ⟨0, "sub_1", "invoice.paid", 2000⟩ rfl (by decide) (by decide)
     (by decide)⟩

/-- C3: the claim says `verify_signature` returns `false` on any
verification failure and never lets an exception escape; the code
catches only `ValueError` while the library raises
`SignatureVerificationError` (not a `ValueError`), so every failing
verification escapes as an exception and no input ever yields
`.ok false`.  The code contradicts its own docstring. -/
theorem claim_C3_sigverify_raises :
    verify_signature false =
      .error (.signatureVerificationError "signature verification failed") ∧
    verify_signature true = .ok true :=
  ⟨rfl, rfl⟩

/-- C4 counterexample: the claim promises the success outcome for every
event without a registered handler, but an unresolved event whose
payload object lacks an `id` key makes the warning path raise
`KeyError` while building log extras, so `process_event` raises instead
of returning success. -/
theorem claim_C4_counterexample :
    process_event regFNF emptyTrackerState evNoId =
      ⟨.error (.keyError "id"), emptyTrackerState, [], false⟩ ∧
    (process_event regFNF emptyTrackerState evNoId).outcome ≠ .ok () :=
  ⟨rfl, by decide⟩

/-- C4 amended: for every event whose payload object contains an `id`
key and whose type resolves to no registered handler (missing module
file or missing function), `process_event` returns the success outcome
and issues no store operation at all — the tracker is neither read nor
written. -/
theorem claim_C4_no_trace_unresolved (registry : Registry)
    (s : TrackerState) (e : StripeEvent) (rid : String)
    (hid : e.data.object.lookup "id" = some rid)
    (hres : registry e.type = .fileNotFoundError ∨
            registry e.type = .attributeError) :
    process_event registry s e = ⟨.ok (), s, [], false⟩ := by
  rcases hres with h | h <;>
    simp only [process_event, h, ctxWarning, prepare_log_extras, hid]

/-- C4 witness: a concrete unresolved event with an `id` key is ACKed
with an untouched store. -/
theorem claim_C4_witness :
    (evWithId 100).data.object.lookup "id" = some "sub_1" ∧
    regFNF (evWithId 100).type = .fileNotFoundError ∧
    process_event regFNF emptyTrackerState (evWithId 100) =
      ⟨.ok (), emptyTrackerState, [], false⟩ :=
  ⟨by decide, rfl,
   claim_C4_no_trace_unresolved regFNF emptyTrackerState (evWithId 100)
     "sub_1" (by decide) (Or.inl rfl)⟩

/-- C5: when the gate admits the event and the resolved handler raises,
`process_event` propagates exactly that exception, leaves the store
unchanged, and performs only the single gate read — the creation
timestamp is never committed. -/
theorem claim_C5_handler_failure (registry : Registry) (s : TrackerState)
    (e : StripeEvent) (handler : StripeEvent → Except PyExc Unit)
    (exc : PyExc)
    (hres : registry e.type = .resolved handler)
    (hchk : check_webhook_tracker s e = .ok true)
    (hfail : handler e = .error exc) :
    process_event registry s e = ⟨.error exc, s, fetchOps e, true⟩ ∧
    ∀ op ∈ fetchOps e, ∃ a b, op = .fetch a b := by
  constructor
  · simp only [process_event, hres, hchk, hfail]
  · intro op hop
    unfold fetchOps at hop
    cases h : e.data.object.lookup "id" <;> rw [h] at hop
    · simp at hop
    · simp at hop
      exact ⟨_, _, hop⟩

/-- C5 witness: a concrete fresh event whose handler raises leaves the
one-row store untouched and surfaces the handler exception. -/
theorem claim_C5_witness :
    regBoom (evWithId 3000).type = .resolved boomHandler ∧
    check_webhook_tracker oneRowState (evWithId 3000) = .ok true ∧
    boomHandler (evWithId 3000) = .error (.handlerError "boom") ∧
    (process_event regBoom oneRowState (evWithId 3000) =
      ⟨.error (.handlerError "boom"), oneRowState,
        fetchOps (evWithId 3000), true⟩ ∧
     ∀ op ∈ fetchOps (evWithId 3000), ∃ a b, op = .fetch a b) :=
  ⟨rfl, by decide, rfl,
   claim_C5_handler_failure regBoom oneRowState (evWithId 3000)
     boomHandler (.handlerError "boom") rfl (by decide) rfl⟩

/-- C7 counterexample: the claim promises a 429-equivalent retryable
outcome for every rate-limited resolution, but when the payload object
lacks an `id` key the warning raised before the `HTTPException` dies
with a `KeyError`, so neither the 429 signal nor success is produced. -/
theorem claim_C7_counterexample :
    process_event regRL emptyTrackerState evNoId =
      ⟨.error (.keyError "id"), emptyTrackerState, [], false⟩ ∧
    (process_event regRL emptyTrackerState evNoId).outcome ≠
      .error (.httpException 429 "Rate-limited by Stripe") ∧
    (process_event regRL emptyTrackerState evNoId).outcome ≠ .ok () :=
  ⟨rfl, by decide, by decide⟩

/-- C7 amended: for every event whose payload object contains an `id`
key and whose handler resolution raises a rate-limit signal
(`RateLimitError`, or a `StripeError` with `http_status` 429),
`process_event` raises `HTTPException` with status 429 rather than
returning success, and performs no store operation. -/
theorem claim_C7_rate_limited (registry : Registry) (s : TrackerState)
    (e : StripeEvent) (rid : String)
    (hid : e.data.object.lookup "id" = some rid)
    (hres : (∃ m, registry e.type = .rateLimitError m) ∨
            (∃ m, registry e.type = .stripeError (some 429) m)) :
    process_event registry s e =
      ⟨.error (.httpException 429 "Rate-limited by Stripe"), s, [], false⟩ := by
  rcases hres with ⟨m, h⟩ | ⟨m, h⟩ <;>
    simp only [process_event, h, ctxWarning, prepare_log_extras, hid, if_pos]

/-- C7 witness: a concrete rate-limited event with an `id` key yields
the 429 signal with an untouched store. -/
theorem claim_C7_witness :
    (evWithId 100).data.object.lookup "id" = some "sub_1" ∧
    regRL (evWithId 100).type = .rateLimitError "rate limited" ∧
    process_event regRL emptyTrackerState (evWithId 100) =
      ⟨.error (.httpException 429 "Rate-limited by Stripe"),
        emptyTrackerState, [], false⟩ :=
  ⟨by decide, rfl,
   claim_C7_rate_limited regRL emptyTrackerState (evWithId 100) "sub_1"
     (by decide) (Or.inl ⟨"rate limited", rfl⟩)⟩

/-- C8: a relay envelope whose secret does not match the expected
shared secret (including the case where no secret is configured) is
ACKed with a 204 no-content response and dropped: the router is never
consulted, no handler runs, and the tracker store sees no operation. -/
theorem claim_C8_relay_drop (expected : Option String)
    (registry : Registry) (s : TrackerState) (pe : PubSubEvent)
    (hms : some pe.secret ≠ expected) :
    pubsub expected registry s pe = ⟨.noContent, s, [], false, false⟩ := by
  unfold pubsub
  rw [if_pos hms]

/-- C8 witness: a concrete envelope with the wrong secret is dropped
with a 204 and no side effect. -/
theorem claim_C8_witness :
    some "wrong" ≠ some "right" ∧
    pubsub (some "right") regResolved oneRowState ⟨"wrong", evWithId 100⟩ =
      ⟨.noContent, oneRowState, [], false, false⟩ :=
  ⟨by decide,
   claim_C8_relay_drop (some "right") regResolved oneRowState
     ⟨"wrong", evWithId 100⟩ (by decide)⟩

/-- C9: when handler resolution raises a `StripeError` whose
`http_status` is not 429, the except clause absorbs the error without
setting a handler, and the following `assert fun is not None` fails:
`process_event` raises `AssertionError` — neither success, nor the 429
signal, nor the original Stripe error. -/
theorem claim_C9_assertion_failure (registry : Registry)
    (s : TrackerState) (e : StripeEvent) (st : Option Nat) (msg : String)
    (hres : registry e.type = .stripeError st msg)
    (hne : st ≠ some 429) :
    process_event registry s e = ⟨.error .assertionError, s, [], false⟩ := by
  simp only [process_event, hres, if_neg hne]

/-- C9 witness: a concrete resolution-time Stripe error with status 500
turns into an `AssertionError`. -/
theorem claim_C9_witness :
    regSE500 (evWithId 100).type = .stripeError (some 500) "server error" ∧
    (some 500 : Option Nat) ≠ some 429 ∧
    process_event regSE500 emptyTrackerState (evWithId 100) =
      ⟨.error .assertionError, emptyTrackerState, [], false⟩ :=
  ⟨rfl, by decide,
   claim_C9_assertion_failure regSE500 emptyTrackerState (evWithId 100)
     (some 500) "server error" rfl (by decide)⟩

/-- C10: for an event whose payload object has no `id` key, every
warning path of the pipeline (missing module, missing function, rate
limit, Stripe 429) raises `KeyError` while building log extras, and no
registry whatsoever lets `process_event` return the success payload;
conversely, when the payload has an `id` key, building log extras and
the tracker id lookup both succeed. -/
theorem claim_C10_missing_payload_id (s : TrackerState) (e : StripeEvent) :
    (e.data.object.lookup "id" = none →
      (∀ registry : Registry,
        (registry e.type = .fileNotFoundError ∨
         registry e.type = .attributeError ∨
         (∃ m, registry e.type = .rateLimitError m) ∨
         (∃ m, registry e.type = .stripeError (some 429) m)) →
        (process_event registry s e).outcome = .error (.keyError "id")) ∧
      (∀ registry : Registry, (process_event registry s e).outcome ≠ .ok ())) ∧
    (∀ rid, e.data.object.lookup "id" = some rid →
      prepare_log_extras e [] =
        .ok [("event_id", e.id), ("resource_id", rid)] ∧
      fetch_webhook_tracker s e = .ok (findTrackerRow s.rows rid e.type)) := by
  constructor
  · intro hnone
    constructor
    · intro registry hres
      rcases hres with h | h | ⟨m, h⟩ | ⟨m, h⟩ <;>
        simp only [process_event, h, ctxWarning, prepare_log_extras, hnone,
          if_pos]
    · intro registry
      cases h : registry e.type with
      | resolved handler =>
        simp [process_event, h, check_webhook_tracker,
          fetch_webhook_tracker, hnone]
      | fileNotFoundError =>
        simp [process_event, h, ctxWarning, prepare_log_extras, hnone]
      | attributeError =>
        simp [process_event, h, ctxWarning, prepare_log_extras, hnone]
      | rateLimitError m =>
        simp [process_event, h, ctxWarning, prepare_log_extras, hnone]
      | stripeError st m =>
        by_cases h429 : st = some 429
        · simp [process_event, h, h429, ctxWarning, prepare_log_extras,
            hnone]
        · simp [process_event, h, if_neg h429]
  · intro rid hrid
    exact ⟨by simp [prepare_log_extras, hrid],
           by simp [fetch_webhook_tracker, hrid]⟩

/-- C10 witness: the concrete id-less event is never ACKed (the
unresolved path raises `KeyError`), while the event carrying an `id`
builds its log extras without error. -/
theorem claim_C10_witness :
    (process_event regFNF emptyTrackerState evNoId).outcome =
      .error (.keyError "id") ∧
    prepare_log_extras (evWithId 100) [] =
      .ok [("event_id", "evt_1"), ("resource_id", "sub_1")] :=
  ⟨((claim_C10_missing_payload_id emptyTrackerState evNoId).1 (by decide)).1
      regFNF (Or.inl rfl),
   ((claim_C10_missing_payload_id emptyTrackerState (evWithId 100)).2
      "sub_1" (by decide)).1⟩

/-- Rows of a store whose mapped ids are duplicate-free are determined
by their id. -/
lemma row_eq_of_id_eq {rows : List WebhookTracker}
    (hnd : (rows.map (fun r => r.id)).Nodup) {a b : WebhookTracker}
    (ha : a ∈ rows) (hb : b ∈ rows) (h : a.id = b.id) : a = b :=
  List.inj_on_of_nodup_map hnd ha hb h

/-- Every row survives unchanged into an unchanged store. -/
lemma rows_preserved (s : TrackerState) :
    ∀ t ∈ s.rows, ∃ u ∈ s.rows,
      u.id = t.id ∧ u.event_id = t.event_id ∧ u.event_type = t.event_type ∧
      t.updated ≤ u.updated :=
  fun t ht => ⟨t, ht, rfl, rfl, rfl, le_refl _⟩

/-- C6: one `process_event` invocation never deletes a tracker row and
never lowers a stored timestamp (each prior row persists, same key,
timestamp at least its old value), and every `UPDATE` it issues writes
a timestamp strictly greater than the one previously stored in the
targeted row. -/
theorem claim_C6_monotonic (registry : Registry) (s : TrackerState)
    (e : StripeEvent) (hnd : (s.rows.map (fun r => r.id)).Nodup) :
    (∀ t ∈ s.rows, ∃ u ∈ (process_event registry s e).state.rows,
        u.id = t.id ∧ u.event_id = t.event_id ∧ u.event_type = t.event_type ∧
        t.updated ≤ u.updated) ∧
    (∀ i v, StoreOp.updateRow i v ∈ (process_event registry s e).ops →
        ∃ t ∈ s.rows, t.id = i ∧ t.updated < v) := by
  cases h : registry e.type with
  | fileNotFoundError =>
    cases hw : ctxWarning e [("event_id", e.id)] <;>
      simp only [process_event, h, hw] <;>
      exact ⟨rows_preserved s, by simp⟩
  | attributeError =>
    cases hw : ctxWarning e [("event_id", e.id)] <;>
      simp only [process_event, h, hw] <;>
      exact ⟨rows_preserved s, by simp⟩
  | rateLimitError m =>
    cases hw : ctxWarning e [("event_id", e.id), ("error", m)] <;>
      simp only [process_event, h, hw] <;>
      exact ⟨rows_preserved s, by simp⟩
  | stripeError st m =>
    by_cases h429 : st = some 429
    · subst h429
      cases hw : ctxWarning e [("event_id", e.id), ("error", m)] <;>
        simp only [process_event, h, if_pos rfl, hw] <;>
        exact ⟨rows_preserved s, by simp⟩
    · simp only [process_event, h, if_neg h429]
      exact ⟨rows_preserved s, by simp⟩
  | resolved handler =>
    cases hid : e.data.object.lookup "id" with
    | none =>
      simp only [process_event, h, check_webhook_tracker,
        fetch_webhook_tracker, hid]
      exact ⟨rows_preserved s, by simp⟩
    | some rid =>
      cases hfind : findTrackerRow s.rows rid e.type with
      | none =>
        cases hh : handler e with
        | error exc =>
          simp only [process_event, h, check_webhook_tracker,
            fetch_webhook_tracker, hid, hfind, hh, fetchOps]
          exact ⟨rows_preserved s, by simp⟩
        | ok u =>
          simp only [process_event, h, check_webhook_tracker,
            fetch_webhook_tracker, hid, hfind, hh,
            increment_webhook_tracker, fetchOps]
          constructor
          · intro t ht
            exact ⟨t, List.mem_append_left _ ht, rfl, rfl, rfl, le_refl _⟩
          · intro i v hop
            simp at hop
      | some t =>
        by_cases hlt : t.updated < e.created
        · have hd : decide (t.updated < e.created) = true :=
            decide_eq_true hlt
          have hmem : t ∈ s.rows := by
            unfold findTrackerRow at hfind
            exact List.mem_of_find?_eq_some hfind
          cases hh : handler e with
          | error exc =>
            simp only [process_event, h, check_webhook_tracker,
              fetch_webhook_tracker, hid, hfind, hd, hh, fetchOps]
            exact ⟨rows_preserved s, by simp⟩
          | ok u =>
            simp only [process_event, h, check_webhook_tracker,
              fetch_webhook_tracker, hid, hfind, hd, hh,
              increment_webhook_tracker, fetchOps]
            constructor
            · intro t0 ht0
              by_cases hi : t0.id = t.id
              · refine ⟨{ t0 with updated := e.created },
                  ?_, rfl, rfl, rfl, ?_⟩
                · have := List.mem_map_of_mem
                    (f := fun r =>
                      if r.id = t.id then { r with updated := e.created }
                      else r) ht0
                  simpa [hi] using this
                · have ht0t : t0 = t := row_eq_of_id_eq hnd ht0 hmem hi
                  exact le_of_lt (ht0t ▸ hlt)
              · refine ⟨t0, ?_, rfl, rfl, rfl, le_refl _⟩
                have := List.mem_map_of_mem
                  (f := fun r =>
                    if r.id = t.id then { r with updated := e.created }
                    else r) ht0
                simpa [hi] using this
            · intro i v hop
              simp at hop
              exact ⟨t, hmem, hop.1.symm, hop.2 ▸ hlt⟩
        · have hd : decide (t.updated < e.created) = false :=
            decide_eq_false hlt
          simp only [process_event, h, check_webhook_tracker,
            fetch_webhook_tracker, hid, hfind, hd, fetchOps]
          exact ⟨rows_preserved s, by simp⟩

/-- C6 witness: a fresh delivery (created 3000 over stored 2000)
preserves the prior row identity and its `UPDATE` writes a strictly
larger timestamp. -/
theorem claim_C6_witness :
    ((oneRowState.rows.map (fun r => r.id)).Nodup) ∧
    ((∀ t ∈ oneRowState.rows,
        ∃ u ∈ (process_event regResolved oneRowState
                (evWithId 3000)).state.rows,
          u.id = t.id ∧ u.event_id = t.event_id ∧
          u.event_type = t.event_type ∧ t.updated ≤ u.updated) ∧
     (∀ i v, StoreOp.updateRow i v ∈
        (process_event regResolved oneRowState (evWithId 3000)).ops →
        ∃ t ∈ oneRowState.rows, t.id = i ∧ t.updated < v)) :=
  ⟨by decide,
   claim_C6_monotonic regResolved oneRowState (evWithId 3000) (by decide)⟩

/-- Running maximum of creation timestamps, seeded with a stored
timestamp. -/
def foldMaxCreated (u : Int) (es : List StripeEvent) : Int :=
  es.foldl (fun a e => max a e.created) u

/-- Creation timestamps the pipeline commits when the listed events are
processed sequentially against a store currently holding `u`: an event
commits exactly when it is strictly newer than the running value. -/
def committedFrom (u : Int) : List StripeEvent → List Int
  | [] => []
  | e :: rest =>
    if u < e.created then e.created :: committedFrom e.created rest
    else committedFrom u rest

lemma le_foldMaxCreated (es : List StripeEvent) :
    ∀ u : Int, u ≤ foldMaxCreated u es := by
  induction es with
  | nil => intro u; exact le_refl u
  | cons e rest ih =>
    intro u
    exact le_trans (le_max_left u e.created) (ih (max u e.created))

lemma created_le_foldMaxCreated (es : List StripeEvent) :
    ∀ u : Int, ∀ e ∈ es, e.created ≤ foldMaxCreated u es := by
  induction es with
  | nil => intro u e he; cases he
  | cons e0 rest ih =>
    intro u e he
    rcases List.mem_cons.mp he with rfl | hmem
    · exact le_trans (le_max_right u e.created)
        (le_foldMaxCreated rest (max u e.created))
    · exact ih (max u e0.created) e hmem

lemma foldMaxCreated_cases (es : List StripeEvent) :
    ∀ u : Int, foldMaxCreated u es = u ∨
      ∃ e ∈ es, foldMaxCreated u es = e.created := by
  induction es with
  | nil => intro u; exact Or.inl rfl
  | cons e0 rest ih =>
    intro u
    have hstep : foldMaxCreated u (e0 :: rest) =
        foldMaxCreated (max u e0.created) rest := rfl
    rcases ih (max u e0.created) with h | ⟨e, he, h⟩
    · rcases max_choice u e0.created with hm | hm
      · exact Or.inl (by rw [hstep, h, hm])
      · exact Or.inr ⟨e0, List.mem_cons_self e0 rest, by rw [hstep, h, hm]⟩
    · exact Or.inr ⟨e, List.mem_cons_of_mem e0 he, by rw [hstep, h]⟩

lemma committedFrom_le (es : List StripeEvent) :
    ∀ u : Int, ∀ c ∈ committedFrom u es, c ≤ foldMaxCreated u es := by
  induction es with
  | nil => intro u c hc; cases hc
  | cons e0 rest ih =>
    intro u c hc
    have hstep : foldMaxCreated u (e0 :: rest) =
        foldMaxCreated (max u e0.created) rest := rfl
    by_cases hu : u < e0.created
    · rw [committedFrom, if_pos hu] at hc
      rw [hstep, max_eq_right (le_of_lt hu)]
      rcases List.mem_cons.mp hc with rfl | hmem
      · exact le_foldMaxCreated rest e0.created
      · exact ih e0.created c hmem
    · rw [committedFrom, if_neg hu] at hc
      rw [hstep, max_eq_left (not_lt.mp hu)]
      exact ih u c hc

lemma foldMaxCreated_mem_committed (es : List StripeEvent) :
    ∀ u : Int, foldMaxCreated u es = u ∨
      foldMaxCreated u es ∈ committedFrom u es := by
  induction es with
  | nil => intro u; exact Or.inl rfl
  | cons e0 rest ih =>
    intro u
    have hstep : foldMaxCreated u (e0 :: rest) =
        foldMaxCreated (max u e0.created) rest := rfl
    by_cases hu : u < e0.created
    · rw [hstep, max_eq_right (le_of_lt hu)]
      rw [committedFrom, if_pos hu]
      rcases ih e0.created with h | h
      · exact Or.inr (by rw [h]; exact List.mem_cons_self _ _)
      · exact Or.inr (List.mem_cons_of_mem _ h)
    · rw [hstep, max_eq_left (not_lt.mp hu)]
      rw [committedFrom, if_neg hu]
      exact ih u

/-- One `process_event` step on a store holding exactly the single row
of the shared key: the stored timestamp becomes the maximum of old and
incoming value, and the handler runs exactly when the incoming event is
strictly newer. -/
lemma process_event_single_row (registry : Registry)
    (handler : StripeEvent → Except PyExc Unit) (ty rid : String)
    (i n : Nat) (u : Int) (e : StripeEvent)
    (hty : e.type = ty) (hid : e.data.object.lookup "id" = some rid)
    (hres : registry ty = .resolved handler) (hok : handler e = .ok ()) :
    (process_event registry ⟨[⟨i, rid, ty, u⟩], n⟩ e).state =
      ⟨[⟨i, rid, ty, max u e.created⟩], n⟩ ∧
    (process_event registry ⟨[⟨i, rid, ty, u⟩], n⟩ e).handlerRan =
      decide (u < e.created) := by
  subst hty
  have hfind : findTrackerRow [⟨i, rid, e.type, u⟩] rid e.type =
      some ⟨i, rid, e.type, u⟩ := by
    simp [findTrackerRow]
  by_cases hlt : u < e.created
  · have hd : decide (u < e.created) = true := decide_eq_true hlt
    constructor <;>
      simp [process_event, hres, check_webhook_tracker,
        fetch_webhook_tracker, hid, hfind, hd, hok,
        increment_webhook_tracker, fetchOps,
        max_eq_right (le_of_lt hlt)]
  · have hd : decide (u < e.created) = false := decide_eq_false hlt
    constructor <;>
      simp [process_event, hres, check_webhook_tracker,
        fetch_webhook_tracker, hid, hfind, hd,
        max_eq_left (not_lt.mp hlt)]

/-- The first accepted event for a key creates the tracker row with the
event creation timestamp, and the handler runs. -/
lemma process_event_empty_state (registry : Registry)
    (handler : StripeEvent → Except PyExc Unit) (ty rid : String)
    (e : StripeEvent)
    (hty : e.type = ty) (hid : e.data.object.lookup "id" = some rid)
    (hres : registry ty = .resolved handler) (hok : handler e = .ok ()) :
    (process_event registry emptyTrackerState e).state =
      ⟨[⟨0, rid, ty, e.created⟩], 1⟩ ∧
    (process_event registry emptyTrackerState e).handlerRan = true := by
  subst hty
  constructor <;>
    simp [process_event, hres, check_webhook_tracker,
      fetch_webhook_tracker, hid, findTrackerRow, emptyTrackerState, hok,
      increment_webhook_tracker, fetchOps]

/-- Sequential processing of a uniform-key event list against the
single row of that key: the stored timestamp folds `max` over the
creation timestamps and the committed list is `committedFrom`. -/
lemma processSeq_single_row (registry : Registry)
    (handler : StripeEvent → Except PyExc Unit) (ty rid : String)
    (i n : Nat) (es : List StripeEvent)
    (hres : registry ty = .resolved handler)
    (hall : ∀ e ∈ es, e.type = ty ∧
      e.data.object.lookup "id" = some rid ∧ handler e = .ok ()) :
    ∀ u : Int, processSeq registry ⟨[⟨i, rid, ty, u⟩], n⟩ es =
      (⟨[⟨i, rid, ty, foldMaxCreated u es⟩], n⟩, committedFrom u es) := by
  induction es with
  | nil => intro u; simp [processSeq, foldMaxCreated, committedFrom]
  | cons e rest ih =>
    intro u
    obtain ⟨hty, hid, hok⟩ := hall e (List.mem_cons_self e rest)
    have hstep := process_event_single_row registry handler ty rid i n u e
      hty hid hres hok
    have hrest := ih (fun e2 h2 => hall e2 (List.mem_cons_of_mem e h2))
      (max u e.created)
    have hfold : foldMaxCreated u (e :: rest) =
        foldMaxCreated (max u e.created) rest := rfl
    simp only [processSeq, hstep.1, hstep.2, hrest, hfold]
    by_cases hlt : u < e.created
    · have hd : decide (u < e.created) = true := decide_eq_true hlt
      rw [hd, committedFrom, if_pos hlt,
        max_eq_right (le_of_lt hlt)]
      simp
    · have hd : decide (u < e.created) = false := decide_eq_false hlt
      rw [hd, committedFrom, if_neg hlt,
        max_eq_left (not_lt.mp hlt)]
      simp

/-- Sequential processing of a nonempty uniform-key event list from the
empty store: the first event inserts its timestamp and commits, the
rest fold `max`. -/
lemma processSeq_from_empty (registry : Registry)
    (handler : StripeEvent → Except PyExc Unit) (ty rid : String)
    (e : StripeEvent) (rest : List StripeEvent)
    (hres : registry ty = .resolved handler)
    (hall : ∀ e2 ∈ e :: rest, e2.type = ty ∧
      e2.data.object.lookup "id" = some rid ∧ handler e2 = .ok ()) :
    processSeq registry emptyTrackerState (e :: rest) =
      (⟨[⟨0, rid, ty, foldMaxCreated e.created rest⟩], 1⟩,
       e.created :: committedFrom e.created rest) := by
  obtain ⟨hty, hid, hok⟩ := hall e (List.mem_cons_self e rest)
  have hfirst := process_event_empty_state registry handler ty rid e
    hty hid hres hok
  have hrest := processSeq_single_row registry handler ty rid 0 1 rest
    hres (fun e2 h2 => hall e2 (List.mem_cons_of_mem e h2)) e.created
  simp only [processSeq, hfirst.1, hfirst.2, hrest]
  simp

/-- The final stored value for a nonempty run is the least upper bound
of the creation timestamps: it is attained by some event and dominates
all of them. -/
lemma fold_head_is_lub (e : StripeEvent) (rest : List StripeEvent) :
    (∃ e2 ∈ e :: rest, foldMaxCreated e.created rest = e2.created) ∧
    (∀ e2 ∈ e :: rest, e2.created ≤ foldMaxCreated e.created rest) := by
  constructor
  · rcases foldMaxCreated_cases rest e.created with h | ⟨e2, h2, h⟩
    · exact ⟨e, List.mem_cons_self e rest, h⟩
    · exact ⟨e2, List.mem_cons_of_mem e h2, h⟩
  · intro e2 h2
    rcases List.mem_cons.mp h2 with rfl | hm
    · exact le_foldMaxCreated rest e2.created
    · exact created_le_foldMaxCreated rest e.created e2 hm

/-- C2: a nonempty sequence of events sharing a logical key, processed
sequentially from an empty store with every resolved handler returning
normally, leaves exactly one tracker row whose stored timestamp is the
maximum creation timestamp among the committed (non-skipped) events,
equals the maximum over the whole sequence, and is invariant under any
permutation of the arrival order. -/
theorem claim_C2_monotonic_convergence (registry : Registry)
    (ty rid : String) (handler : StripeEvent → Except PyExc Unit)
    (es : List StripeEvent) (hne : es ≠ [])
    (hres : registry ty = .resolved handler)
    (hall : ∀ e ∈ es, e.type = ty ∧
      e.data.object.lookup "id" = some rid ∧ handler e = .ok ()) :
    ∃ u : Int,
      (processSeq registry emptyTrackerState es).1.rows =
        [⟨0, rid, ty, u⟩] ∧
      (u ∈ (processSeq registry emptyTrackerState es).2 ∧
       ∀ c ∈ (processSeq registry emptyTrackerState es).2, c ≤ u) ∧
      ((∃ e ∈ es, u = e.created) ∧ (∀ e ∈ es, e.created ≤ u)) ∧
      (∀ es2, es.Perm es2 →
        (processSeq registry emptyTrackerState es2).1.rows =
          [⟨0, rid, ty, u⟩]) := by
  cases es with
  | nil => exact absurd rfl hne
  | cons e rest =>
    have hrun := processSeq_from_empty registry handler ty rid e rest
      hres hall
    refine ⟨foldMaxCreated e.created rest, ?_, ?_, ?_, ?_⟩
    · rw [hrun]
    · rw [hrun]
      constructor
      · rcases foldMaxCreated_mem_committed rest e.created with h | h
        · rw [h]; exact List.mem_cons_self _ _
        · exact List.mem_cons_of_mem _ h
      · intro c hc
        rcases List.mem_cons.mp hc with rfl | hm
        · exact le_foldMaxCreated rest _
        · exact committedFrom_le rest e.created c hm
    · constructor
      · rcases (fold_head_is_lub e rest).1 with ⟨e2, h2, h⟩
        exact ⟨e2, h2, h⟩
      · exact (fold_head_is_lub e rest).2
    · intro es2 hperm
      cases es2 with
      | nil => exact absurd hperm.eq_nil (List.cons_ne_nil e rest)
      | cons e2 rest2 =>
        have hall2 : ∀ x ∈ e2 :: rest2, x.type = ty ∧
            x.data.object.lookup "id" = some rid ∧ handler x = .ok () :=
          fun x hx => hall x (hperm.mem_iff.mpr hx)
        have hrun2 := processSeq_from_empty registry handler ty rid e2
          rest2 hres hall2
        rw [hrun2]
        have h12 : foldMaxCreated e2.created rest2 =
            foldMaxCreated e.created rest := by
          apply le_antisymm
          · rcases (fold_head_is_lub e2 rest2).1 with ⟨x, hx, hxe⟩
            rw [hxe]
            exact (fold_head_is_lub e rest).2 x (hperm.mem_iff.mpr hx)
          · rcases (fold_head_is_lub e rest).1 with ⟨x, hx, hxe⟩
            rw [hxe]
            exact (fold_head_is_lub e2 rest2).2 x (hperm.mem_iff.mp hx)
        rw [h12]

/-- C2 witness: the concrete sequence with creation timestamps 1000,
2000, 500 (the last one stale) converges to a single row, whose stored
timestamp the theorem characterises as the committed maximum,
independent of arrival order. -/
theorem claim_C2_witness :
    ([evWithId 1000, evWithId 2000, evWithId 500] ≠ ([] : List StripeEvent)) ∧
    regResolved "invoice.paid" = .resolved okHandler ∧
    (∀ e ∈ [evWithId 1000, evWithId 2000, evWithId 500],
      e.type = "invoice.paid" ∧
      e.data.object.lookup "id" = some "sub_1" ∧ okHandler e = .ok ()) ∧
    (∃ u : Int,
      (processSeq regResolved emptyTrackerState
        [evWithId 1000, evWithId 2000, evWithId 500]).1.rows =
          [⟨0, "sub_1", "invoice.paid", u⟩] ∧
      (u ∈ (processSeq regResolved emptyTrackerState
        [evWithId 1000, evWithId 2000, evWithId 500]).2 ∧
       ∀ c ∈ (processSeq regResolved emptyTrackerState
        [evWithId 1000, evWithId 2000, evWithId 500]).2, c ≤ u) ∧
      ((∃ e ∈ [evWithId 1000, evWithId 2000, evWithId 500],
          u = e.created) ∧
       (∀ e ∈ [evWithId 1000, evWithId 2000, evWithId 500],
          e.created ≤ u)) ∧
      (∀ es2, ([evWithId 1000, evWithId 2000, evWithId 500]).Perm es2 →
        (processSeq regResolved emptyTrackerState es2).1.rows =
          [⟨0, "sub_1", "invoice.paid", u⟩])) :=
  ⟨by simp, rfl, by decide,
   claim_C2_monotonic_convergence regResolved "invoice.paid" "sub_1"
     okHandler [evWithId 1000, evWithId 2000, evWithId 500]
     (by simp) rfl (by decide)⟩

end StripeWebhooks
